import Mathlib

/-!
Verification of the `dga::Result<T, E>` discriminated-union core and the
scope-guard collaborator of the `base` C++ library.

The embedding follows `src/unnamed/part_004` (the complete revision of
`result.h`: the draft under `src/include/dga/result.h` is an earlier
near-duplicate whose `value()` lacks the exception path) and
`src/include/dga/scope.h`.

Modelling conventions:
- The storage cell's union is a three-way `Slot`: it holds a live `T`, a live
  `Error E`, or no live member (the `no_value_` char used for the
  `uninitialised_tag` state, and the state after a destructor call ends the
  live member's lifetime).
- The discriminant `has_value_` is kept as a separate `Bool` field, exactly as
  in the source; nothing in the model forces it to agree with the slot, so
  agreement is a provable invariant, not a definitional one.
- Constructor/destructor/assignment calls on the payloads append `Event`s to a
  trace; the repository's own tests observe exactly these events through the
  `DestructorCounter` instrument, so destructor-discipline claims are stated
  over the trace.
- `assert(...)` failures and reads of a union member that is not the live one
  are modelled as `Option.none` (the operation does not complete normally).
  Writes through a payload's assignment operator are modelled mechanically as
  writes to the slot, which is how the instrumented payloads of the test suite
  behave.
-/

namespace dga

/-- The `Error<E>` wrapper (part_004 lines 28-68): owns one `E`. -/
structure Error (E : Type) where
  value_ : E
deriving DecidableEq, Repr

/-- Payload-lifetime events observable through instrumented payload types
(constructor / destructor / assignment-operator invocations on the stored
alternatives). -/
inductive Event where
  | destroyValue
  | destroyError
  | constructValue
  | constructError
  | assignValue
  | assignError
deriving DecidableEq, Repr

/-- The anonymous union of `ResultStorage` (part_004 lines 148-152): at most
one member is alive; `no_value` models the `char no_value_` member (alive in
the `uninitialised_tag` state) and also storage whose live member's
destructor has run. -/
inductive Slot (T E : Type) where
  | value (v : T)
  | error (e : Error E)
  | no_value
deriving DecidableEq, Repr

/-- `detail::ResultStorage` / the state of a `Result<T, E>` object: the union,
the discriminant, and the accumulated payload-lifetime event trace. -/
structure ResultState (T E : Type) where
  slot : Slot T E
  has_value_ : Bool
  events : List Event
deriving DecidableEq, Repr

variable {T E U G : Type}

/-- `ResultStorage()` (part_004 line 100): value-initialises `T` and marks the
value alternative. `d` stands for the value produced by `T{}`. -/
def mkDefault (d : T) : ResultState T E :=
  ⟨Slot.value d, true, []⟩

/-- `ResultStorage(uninitialised_tag)` (part_004 line 105): the `no_value_`
member is alive, `has_value_` is false. -/
def mkUninitialised : ResultState T E :=
  ⟨Slot.no_value, false, []⟩

/-- `ResultStorage(U&& value)` (part_004 lines 108-110), with the `U -> T`
conversion already applied by the caller. -/
def mkValue (v : T) : ResultState T E :=
  ⟨Slot.value v, true, []⟩

/-- `ResultStorage(Error<G>)` (part_004 lines 112-119): stores
`Error<E>(error.value())`, with the `G -> E` conversion applied. -/
def mkError (e : E) : ResultState T E :=
  ⟨Slot.error ⟨e⟩, false, []⟩

/-- `destructValue()` (part_004 lines 138-141): `assert(has_value_)`, then run
`value_.~T()`. The destructor call is valid only if the union's value member
is the live one; it ends that member's lifetime. -/
def destructValue (r : ResultState T E) : Option (ResultState T E) :=
  if r.has_value_ then
    match r.slot with
    | Slot.value _ => some ⟨Slot.no_value, r.has_value_, r.events ++ [Event.destroyValue]⟩
    | _ => none
  else none

/-- `destructError()` (part_004 lines 143-146): `assert(!has_value_)`, then run
`error_.~Error<E>()`. -/
def destructError (r : ResultState T E) : Option (ResultState T E) :=
  if r.has_value_ then none
  else
    match r.slot with
    | Slot.error _ => some ⟨Slot.no_value, r.has_value_, r.events ++ [Event.destroyError]⟩
    | _ => none

/-- `destruct()` (part_004 lines 130-136): destroy whichever alternative the
discriminant names. -/
def destruct (r : ResultState T E) : Option (ResultState T E) :=
  if r.has_value_ then destructValue r else destructError r

/-- `constructValue(args...)` (part_004 lines 261-269): placement-construct a
`T` in the value member, then set `has_value_ = true`. -/
def constructValue (v : T) (r : ResultState T E) : ResultState T E :=
  ⟨Slot.value v, true, r.events ++ [Event.constructValue]⟩

/-- `constructError(args...)` (part_004 lines 271-275): placement-construct an
`Error<E>` in the error member, then set `has_value_ = false`. -/
def constructError (e : E) (r : ResultState T E) : ResultState T E :=
  ⟨Slot.error ⟨e⟩, false, r.events ++ [Event.constructError]⟩

/-- `assignValue(U&&)` (part_004 lines 277-281): `value_ = forward(value)`
through `T::operator=`, then set `has_value_ = true`. Modelled as a
mechanical write of the value member plus an assignment event. -/
def assignValue (v : T) (r : ResultState T E) : ResultState T E :=
  ⟨Slot.value v, true, r.events ++ [Event.assignValue]⟩

/-- `assignError` (part_004 lines 283-291): `error_ = value` through
`Error<E>::operator=` (part_004 lines 40-48), then set `has_value_ = false`. -/
def assignError (e : E) (r : ResultState T E) : ResultState T E :=
  ⟨Slot.error ⟨e⟩, false, r.events ++ [Event.assignError]⟩

/-- `has_value()` (part_004 lines 574-576): returns the discriminant. -/
def has_value (r : ResultState T E) : Bool :=
  r.has_value_

/-- Read of the union's `value_` member: defined only while that member is the
live one. -/
def readValue (r : ResultState T E) : Option T :=
  match r.slot with
  | Slot.value v => some v
  | _ => none

/-- Read of the union's `error_` member: defined only while that member is the
live one. -/
def readError (r : ResultState T E) : Option (Error E) :=
  match r.slot with
  | Slot.error e => some e
  | _ => none

/-- `MissingResultValue<E>` (part_004 lines 295-322): the exception thrown by
`value()` on an error-holding result; carries the error. -/
structure MissingResultValue (E : Type) where
  error_ : E
deriving DecidableEq, Repr

/-- `value() const&` (part_004 lines 578-584): if `!has_value()`, throw
`MissingResultValue(error_.value())`; otherwise return `value_`. `Except.error`
models the thrown exception, `Except.ok` the normal return. -/
def ResultState.value (r : ResultState T E) : Option (Except (MissingResultValue E) T) :=
  if !(has_value r) then (readError r).map (fun x => Except.error ⟨x.value_⟩)
  else (readValue r).map Except.ok

/-- `error() const&` (part_004 lines 610-613): `assert(!has_value())`, then
return `error_.value()`. -/
def ResultState.error (r : ResultState T E) : Option E :=
  if has_value r then none else (readError r).map Error.value_

/-- `operator*` (part_004 lines 546-556): `assert(has_value())`, then return
`value_`. -/
def deref (r : ResultState T E) : Option T :=
  if has_value r then readValue r else none

/-- `operator->` (part_004 lines 534-544): `assert(has_value())`, then return
`&value_`. Used (wrongly) by one branch of `swap`. -/
def arrow (r : ResultState T E) : Option T :=
  if has_value r then readValue r else none

/-- `value_or(U&&) const&` (part_004 lines 630-639): if `has_value()`, return
`value()` (whose exception, if any, would propagate); otherwise
`static_cast<T>` the fallback, modelled by `conv`. -/
def value_or (conv : U → T) (r : ResultState T E) (u : U) : Option T :=
  if has_value r then
    (ResultState.value r).bind (fun out =>
      match out with
      | Except.ok v => some v
      | Except.error _ => none)
  else some (conv u)

/-- Converting construction `Result(const Result<U, G>&)` (part_004 lines
361-369): start from the `uninitialised_tag` state, inspect the source
discriminant, then `constructValue(*other)` with the `U -> T` conversion `f`,
or `constructError(other.error())` with the `G -> E` conversion `g`. -/
def convertConstruct (f : U → T) (g : G → E) (other : ResultState U G) :
    Option (ResultState T E) :=
  if has_value other then
    (deref other).map (fun u => constructValue (f u) (mkUninitialised (T := T) (E := E)))
  else
    (ResultState.error other).map (fun x => constructError (g x) (mkUninitialised (T := T) (E := E)))

/-- `value() const&` read as a state transformer, statement by statement
(part_004 lines 578-584): the body of the const member function only reads
`has_value_`, `error_` and `value_`; each exit path leaves the object it was
called on untouched. The first component is the outcome (`Except.error` for
the thrown `MissingResultValue`), the second the object after the call. -/
def value_const_access (r : ResultState T E) :
    Option (Except (MissingResultValue E) T × ResultState T E) :=
  if !(has_value r) then
    (readError r).map (fun x => (Except.error ⟨x.value_⟩, r))
  else
    (readValue r).map (fun v => (Except.ok v, r))

/-- `operator=(const Result&)` / `operator=(Result&&)` and the converting
forms (part_004 lines 386-443) for non-void `T`: unconditionally
`this->destruct()`, then `assignValue(other.value())` or
`assignError(other.error())` — a payload assignment, not a placement
construction, even though the destination payload was just destroyed. -/
def copyAssign (other r : ResultState T E) : Option (ResultState T E) :=
  (destruct r).bind (fun t =>
    if has_value other then
      (readValue other).map (fun v => assignValue v t)
    else
      (ResultState.error other).map (fun e => assignError e t))

/-- `operator=(U&&)` (part_004 lines 450-461): if value-holding,
`this->value_ = forward(value)` in place; otherwise `destructError()` then
`constructValue(forward(value))`. -/
def assignFromValue (v : T) (r : ResultState T E) : Option (ResultState T E) :=
  if has_value r then
    some ⟨Slot.value v, r.has_value_, r.events ++ [Event.assignValue]⟩
  else (destructError r).map (fun t => constructValue v t)

/-- `operator=(const Error<G>&)` / `operator=(Error<G>&&)` (part_004 lines
463-481): if error-holding, `this->error_ = error` in place; otherwise
`destructValue()` then `constructError(error)`. -/
def assignFromError (e : E) (r : ResultState T E) : Option (ResultState T E) :=
  if !(has_value r) then
    some ⟨Slot.error ⟨e⟩, r.has_value_, r.events ++ [Event.assignError]⟩
  else (destructValue r).map (fun t => constructError e t)

/-- `emplace(args...)` (part_004 lines 483-492): if value-holding,
`this->value_ = T(args...)` (payload assignment from the temporary);
otherwise `destructError()` then `constructValue(args...)`. `v` is the `T`
the arguments construct. -/
def emplace (v : T) (r : ResultState T E) : Option (ResultState T E) :=
  if has_value r then
    some ⟨Slot.value v, r.has_value_, r.events ++ [Event.assignValue]⟩
  else (destructError r).map (fun t => constructValue v t)

/-- The mutations of the public call surface used by the lifetime claims,
with conversions already applied to the incoming payload. -/
inductive ROp (T E : Type) where
  | assignVal (v : T)
  | assignErr (e : E)
  | copyAssignFromVal (v : T)
  | copyAssignFromErr (e : E)
  | emplaceVal (v : T)

/-- Run one facade mutation. -/
def applyOp : ROp T E → ResultState T E → Option (ResultState T E)
  | ROp.assignVal v, r => assignFromValue v r
  | ROp.assignErr e, r => assignFromError e r
  | ROp.copyAssignFromVal v, r => copyAssign (mkValue v) r
  | ROp.copyAssignFromErr e, r => copyAssign (mkError e) r
  | ROp.emplaceVal v, r => emplace v r

/-- Run a sequence of facade mutations. -/
def runOps : List (ROp T E) → ResultState T E → Option (ResultState T E)
  | [], r => some r
  | op :: rest, r => (applyOp op r).bind (runOps rest)

/-- The public constructions of a `Result`: default, from a value, from an
`Error`, and copy/move construction from another `Result` (part_004 lines
342-359, which are the converting constructor with identity conversions). -/
inductive RInit (T E : Type) where
  | defaulted (d : T)
  | fromValue (v : T)
  | fromError (e : E)
  | copiedFromValue (v : T)
  | copiedFromError (e : E)

/-- `Result(const Result&)` / `Result(Result&&)` (part_004 lines 342-359):
the converting constructor with the identity conversions. -/
def copyConstruct (other : ResultState T E) : Option (ResultState T E) :=
  convertConstruct id id other

/-- Build the initial state a construction produces. -/
def applyInit : RInit T E → Option (ResultState T E)
  | RInit.defaulted d => some (mkDefault d)
  | RInit.fromValue v => some (mkValue v)
  | RInit.fromError e => some (mkError e)
  | RInit.copiedFromValue v => copyConstruct (mkValue v)
  | RInit.copiedFromError e => copyConstruct (mkError e)

/-- Invariant I1 at an observable instant: the union's live member is exactly
the alternative the discriminant names. -/
def slotMatches (r : ResultState T E) : Bool :=
  match r.slot, r.has_value_ with
  | Slot.value _, true => true
  | Slot.error _, false => true
  | _, _ => false

/-- The payload-lifetime events an operation leading from `r` to `r1`
emitted. -/
def emitted (r r1 : ResultState T E) : List Event :=
  r1.events.drop r.events.length

/-- The events a single facade mutation emits on `r`. -/
def opEmitted (op : ROp T E) (r : ResultState T E) : Option (List Event) :=
  (applyOp op r).map (emitted r)

/-- A trace consisting only of in-place payload assignments: no payload
destructor and no payload constructor ran. -/
def inPlaceOnly (tr : List Event) : Bool :=
  tr.all (fun ev => ev = Event.assignValue || ev = Event.assignError)

/-- The cross-alternative core of `swap` (part_004 lines 512-529) for
non-void `T`, with `this` (`a`) value-holding and `other` (`b`)
error-holding. `ntE` / `ntT` mirror `std::is_nothrow_move_constructible_v`
of `E` / `T`. The `ntT` branch is the source's
`this->constructError(std::move(other->error_))`: `other->` invokes
`operator->`, whose `assert(has_value())` fails on the error-holding `other`
(and for general `T` the member access `->error_` does not even resolve), so
the branch aborts instead of completing the exchange. -/
def swapValueError (ntE ntT : Bool) (a b : ResultState T E) :
    Option (ResultState T E × ResultState T E) :=
  if ntE then
    (readError b).bind (fun tmp =>
      (destructError b).bind (fun b1 =>
        (readValue a).bind (fun va =>
          (destructValue a).map (fun a1 =>
            (constructError tmp.value_ a1, constructValue va b1)))))
  else if ntT then
    (readValue a).bind (fun _ =>
      (destructValue a).bind (fun _ =>
        (arrow b).bind (fun _ => none)))
  else none

/-- `swap(Result&)` (part_004 lines 501-531) for non-void `T`. Same
alternative on both sides defers to `std::swap` of the payloads (modelled as
in-place payload assignments); when `this` is error-holding and `other`
value-holding the source re-enters through `other.swap(*this)`; the
remaining case is `swapValueError`. Offered only when `ntE || ntT` (the
`enable_if` at lines 502-504, minus the void case). -/
def swapResults (ntE ntT : Bool) (a b : ResultState T E) :
    Option (ResultState T E × ResultState T E) :=
  if has_value a && has_value b then
    (readValue a).bind (fun va => (readValue b).map (fun vb =>
      (⟨Slot.value vb, a.has_value_, a.events ++ [Event.assignValue]⟩,
       ⟨Slot.value va, b.has_value_, b.events ++ [Event.assignValue]⟩)))
  else if !(has_value a) && !(has_value b) then
    (readError a).bind (fun ea => (readError b).map (fun eb =>
      (⟨Slot.error eb, a.has_value_, a.events ++ [Event.assignError]⟩,
       ⟨Slot.error ea, b.has_value_, b.events ++ [Event.assignError]⟩)))
  else if !(has_value a) && has_value b then
    (swapValueError ntE ntT b a).map (fun p => (p.2, p.1))
  else
    swapValueError ntE ntT a b

/-- `ResultStorageDefaultConstructible` gate (part_004 lines 241-254): the
default constructor is kept exactly when `std::is_default_constructible_v<T>
|| std::is_void_v<T>` holds, and deleted otherwise. -/
def default_constructor_offered (is_default_constructible is_void : Bool) : Bool :=
  is_default_constructible || is_void

/-! ## The scope-guard collaborator (`src/include/dga/scope.h`) -/

/-- The three execution policies (scope.h lines 30-87): `OnExitPolicy` backs
`ScopeExit`, `OnFailPolicy` backs `ScopeFail`, `OnSuccessPolicy` backs
`ScopeSuccess`. -/
inductive ScopePolicy where
  | onExit
  | onFail
  | onSuccess
deriving DecidableEq, Repr

/-- The `constexpr static bool execute_on_constructor_failure` constant of
each policy class (scope.h lines 43, 63, 83). -/
def execute_on_constructor_failure : ScopePolicy → Bool
  | ScopePolicy.onExit => true
  | ScopePolicy.onFail => true
  | ScopePolicy.onSuccess => false

/-- Observable steps of constructing a scope guard from an lvalue action. -/
inductive GuardEvent where
  | actionInvoked
  | failurePropagated
  | guardConstructed
deriving DecidableEq, Repr

/-- The lvalue-reference constructor of `ScopeGuardBase` (scope.h lines
101-112): copy `f` into `exit_function`; if that copy throws, the
function-try-block handler calls `f()` when the policy's
`execute_on_constructor_failure` holds, then rethrows. -/
def guardConstructFromLvalue (p : ScopePolicy) (copyThrows : Bool) : List GuardEvent :=
  if copyThrows then
    (if execute_on_constructor_failure p then [GuardEvent.actionInvoked] else []) ++
      [GuardEvent.failurePropagated]
  else [GuardEvent.guardConstructed]

end dga

namespace dga

variable {T E U G : Type}

/-- Helper: a facade mutation never aborts on a state satisfying I1, and it
re-establishes I1. -/
theorem applyOp_preserves (op : ROp T E) (r : ResultState T E)
    (h : slotMatches r = true) :
    ∃ r1, applyOp op r = some r1 ∧ slotMatches r1 = true := by
  obtain ⟨s, f, ev⟩ := r
  cases op <;> cases s <;> cases f <;>
    simp_all [slotMatches, applyOp, assignFromValue, assignFromError, emplace,
      copyAssign, destruct, destructValue, destructError, has_value, readValue,
      readError, constructValue, constructError, assignValue, assignError,
      ResultState.error, mkValue, mkError]

/-- Helper: running any sequence of facade mutations from a state satisfying
I1 completes and re-establishes I1. -/
theorem runOps_preserves (ops : List (ROp T E)) (r : ResultState T E)
    (h : slotMatches r = true) :
    ∃ c, runOps ops r = some c ∧ slotMatches c = true := by
  induction ops generalizing r with
  | nil => exact ⟨r, rfl, h⟩
  | cons op rest ih =>
    obtain ⟨r1, h1, h2⟩ := applyOp_preserves op r h
    obtain ⟨c, hc1, hc2⟩ := ih r1 h2
    exact ⟨c, by simp [runOps, h1, hc1], hc2⟩

/-- Helper: on a state satisfying I1, `destruct()` completes and emits
exactly one destructor event, the one of the alternative the discriminant
names. -/
theorem destruct_emits_one (r : ResultState T E) (h : slotMatches r = true) :
    ∃ r1, destruct r = some r1 ∧
      emitted r r1 = [if r.has_value_ then Event.destroyValue else Event.destroyError] := by
  obtain ⟨s, f, ev⟩ := r
  cases s <;> cases f <;>
    simp_all [slotMatches, destruct, destructValue, destructError, emitted]

/-- C1: calling `value()` on a `Result<T, E>` holding error `e` raises a
`MissingValueSignal` (`MissingResultValue`) failure carrying `e`; in
particular `Result<int, int>(Error(123)).value()` raises a failure whose
carried error equals `123`; and `value()` on a value-holding result returns
the held value without raising. -/
theorem value_on_error_raises_missing_value (e : E) (v : T) :
    ResultState.value (mkError (T := T) e) = some (Except.error ⟨e⟩) ∧
    ResultState.value (mkValue (E := E) v) = some (Except.ok v) ∧
    ResultState.value (mkError (T := Int) (123 : Int)) =
      some (Except.error ⟨(123 : Int)⟩) := by
  refine ⟨rfl, rfl, rfl⟩

/-- C5: round trip — `Result<T, E>(v).value()` returns `v` (without raising),
and `Result<T, E>(Error(e)).error()` returns `e`. -/
theorem result_round_trip (v : T) (e : E) :
    ResultState.value (mkValue (E := E) v) = some (Except.ok v) ∧
    ResultState.error (mkError (T := T) e) = some e := by
  exact ⟨rfl, rfl⟩

/-- C7: a default-constructed `Result` is success holding the default value of
`T`: `has_value()` is `true` and `value()` returns the `T{}` payload — in
particular `Result<int, int>()` has value `0`; and the default constructor is
statically rejected exactly when `T` is neither default-constructible nor
void. -/
theorem default_construction_is_success (d : T) :
    has_value (mkDefault (E := E) d) = true ∧
    ResultState.value (mkDefault (E := E) d) = some (Except.ok d) ∧
    ResultState.value (mkDefault (T := Int) (E := Int) (0 : Int)) =
      some (Except.ok (0 : Int)) ∧
    (∀ dc vd : Bool, default_constructor_offered dc vd = false ↔ (dc = false ∧ vd = false)) := by
  refine ⟨rfl, rfl, rfl, ?_⟩
  intro dc vd
  cases dc <;> cases vd <;> simp [default_constructor_offered]

/-- C8: `value_or` never fails — on a value-holding result it returns the held
value, on an error-holding result the converted fallback; in particular
`Result<float, int>(Error(100)).value_or(300.0f)` is `300.0f` and
`Result<float, int>(1.0f).value_or(300.0f)` is `1.0f` (the float literals are
exactly representable and modelled by the corresponding rationals). -/
theorem value_or_never_fails (conv : U → T) (v : T) (e : E) (u : U) :
    value_or conv (mkValue (E := E) v) u = some v ∧
    value_or conv (mkError (T := T) e) u = some (conv u) ∧
    value_or (id : ℚ → ℚ) (mkError (T := ℚ) (100 : Int)) (300 : ℚ) = some (300 : ℚ) ∧
    value_or (id : ℚ → ℚ) (mkValue (E := Int) (1 : ℚ)) (300 : ℚ) = some (1 : ℚ) := by
  refine ⟨rfl, rfl, rfl, rfl⟩

/-- C2: every `Result` reachable by any sequence of constructions,
assignments and emplacements holds exactly one active alternative (the
union's live member is the alternative the discriminant names), and
destroying it runs the destructor of exactly the currently-active
alternative exactly once — never zero times and never twice. -/
theorem result_destruction_runs_active_destructor_once
    (init : RInit T E) (ops : List (ROp T E)) :
    ∃ r0 c, applyInit init = some r0 ∧ runOps ops r0 = some c ∧ slotMatches c = true ∧
      ∃ c1, destruct c = some c1 ∧
        emitted c c1 = [if c.has_value_ then Event.destroyValue else Event.destroyError] := by
  have hinit : ∃ r0, applyInit (T := T) (E := E) init = some r0 ∧ slotMatches r0 = true := by
    cases init <;>
      simp [applyInit, copyConstruct, convertConstruct, has_value, deref,
        readValue, ResultState.error, readError, mkValue, mkError, mkDefault,
        mkUninitialised, constructValue, constructError, slotMatches]
  obtain ⟨r0, h0, hm⟩ := hinit
  obtain ⟨c, h1, h2⟩ := runOps_preserves ops r0 hm
  obtain ⟨c1, h3, h4⟩ := destruct_emits_one c h2
  exact ⟨r0, c, h0, h1, h2, c1, h3, h4⟩

/-- C3 counterexample: assigning `Result<int, int>(100)` onto
`Result<int, int>(7)` — both sides value-holding — is claimed to be an
in-place payload assignment with no destroy+construct of the destination
payload, but `operator=(const Result&)` first calls `this->destruct()`: the
emitted trace destroys the destination payload and is not
in-place-assignments-only. -/
theorem result_copy_assign_same_alternative_destroys :
    opEmitted (ROp.copyAssignFromVal (100 : Int)) (mkValue (T := Int) (E := Int) 7) =
      some [Event.destroyValue, Event.assignValue] ∧
    ¬ (∀ tr, opEmitted (ROp.copyAssignFromVal (100 : Int)) (mkValue (T := Int) (E := Int) 7) =
        some tr → inPlaceOnly tr = true) := by
  refine ⟨rfl, fun h => ?_⟩
  have := h [Event.destroyValue, Event.assignValue] rfl
  simp [inPlaceOnly] at this

/-- C3 amended: assignments from a value (`operator=(U&&)`) and from an
`ErrorMarker` (`operator=(Error<G>&&)`) follow the claimed discipline — a
differing incoming alternative destroys the old payload exactly once and
then constructs the new one, while a matching alternative is an in-place
payload assignment with no destroy and no construct. Assignment from another
`Result`, however, always destroys the destination payload first — even when
both sides hold the same alternative — and then writes the incoming payload
by payload assignment rather than by construction. -/
theorem assignment_discipline_amended (v w : T) (e d : E) :
    opEmitted (ROp.assignVal w) (mkValue (E := E) v) = some [Event.assignValue] ∧
    (applyOp (ROp.assignVal w) (mkValue (E := E) v)).bind deref = some w ∧
    opEmitted (ROp.assignVal w) (mkError (T := T) e) =
      some [Event.destroyError, Event.constructValue] ∧
    (applyOp (ROp.assignVal w) (mkError (T := T) e)).map has_value = some true ∧
    opEmitted (ROp.assignErr d) (mkError (T := T) e) = some [Event.assignError] ∧
    (applyOp (ROp.assignErr d) (mkError (T := T) e)).bind ResultState.error = some d ∧
    opEmitted (ROp.assignErr d) (mkValue (E := E) v) =
      some [Event.destroyValue, Event.constructError] ∧
    (applyOp (ROp.assignErr d) (mkValue (E := E) v)).map has_value = some false ∧
    opEmitted (ROp.copyAssignFromVal w) (mkValue (E := E) v) =
      some [Event.destroyValue, Event.assignValue] ∧
    opEmitted (ROp.copyAssignFromVal w) (mkError (T := T) e) =
      some [Event.destroyError, Event.assignValue] ∧
    opEmitted (ROp.copyAssignFromErr d) (mkValue (E := E) v) =
      some [Event.destroyValue, Event.assignError] ∧
    opEmitted (ROp.copyAssignFromErr d) (mkError (T := T) e) =
      some [Event.destroyError, Event.assignError] := by
  refine ⟨rfl, rfl, ?_, ?_, rfl, ?_, ?_, ?_, rfl, ?_, ?_, ?_⟩ <;>
    simp [opEmitted, applyOp, assignFromValue, assignFromError, copyAssign,
      destruct, destructValue, destructError, has_value, readValue, readError,
      constructValue, constructError, assignValue, assignError, mkValue, mkError,
      ResultState.error, emitted, deref]

/-- C4: evaluation of `swap` on a value-holding and an error-holding
`Result<int, int>`. With `E` nothrow-move-constructible the exchange
completes as intended: each side ends up holding the other's former payload,
with one destructor run per former payload. With only `T`
nothrow-move-constructible the same swap aborts: the branch reads
`other->error_`, and `operator->`'s `assert(has_value())` fails on the
error-holding side, so no exchanged states are produced. -/
theorem swap_only_T_nothrow_branch_asserts :
    swapResults (T := Int) (E := Int) true false (mkValue 1) (mkError 2) =
      some (⟨Slot.error ⟨2⟩, false, [Event.destroyValue, Event.constructError]⟩,
            ⟨Slot.value 1, true, [Event.destroyError, Event.constructValue]⟩) ∧
    swapResults (T := Int) (E := Int) false true (mkValue 1) (mkError 2) = none := by
  exact ⟨rfl, rfl⟩

/-- C6: converting construction from `Result<U, G>` replicates the source's
alternative by inspecting the source discriminant and converting the payload.
In particular, with the exact `int -> float` conversions modelled over `ℚ`
(the values 100 and 200 are exactly representable floats),
`Result<float, float>(Result<int, int>(100))` holds the value `100.0f` and
`Result<float, float>(Result<int, int>(Error(200)))` holds the error
`200.0f`. -/
theorem converting_construction_replicates_alternative
    (f : U → T) (g : G → E) (u : U) (e : G) :
    convertConstruct f g (mkValue (E := G) u) =
      some ⟨Slot.value (f u), true, [Event.constructValue]⟩ ∧
    convertConstruct f g (mkError (T := U) e) =
      some ⟨Slot.error ⟨g e⟩, false, [Event.constructError]⟩ ∧
    ((convertConstruct (fun n : Int => (n : ℚ)) (fun n : Int => (n : ℚ))
        (mkValue (E := Int) (100 : Int))).bind deref) = some ((100 : Int) : ℚ) ∧
    ((convertConstruct (fun n : Int => (n : ℚ)) (fun n : Int => (n : ℚ))
        (mkError (T := Int) (200 : Int))).bind ResultState.error) = some ((200 : Int) : ℚ) := by
  refine ⟨rfl, rfl, rfl, rfl⟩

/-- C10: `value()` through a const lvalue on an error-holding `Result` raises
`MissingResultValue` carrying a copy of the stored error, and leaves the
`Result` unchanged: it still holds the error alternative with the same
payload. -/
theorem value_const_on_error_preserves_state (r : ResultState T E) (e : E)
    (hflag : has_value r = false) (herr : readError r = some ⟨e⟩) :
    value_const_access r = some (Except.error ⟨e⟩, r) ∧
    has_value r = false ∧
    ResultState.error r = some e := by
  refine ⟨?_, hflag, ?_⟩
  · simp [value_const_access, hflag, herr]
  · simp [ResultState.error, hflag, herr]

/-- Witness for C10 at `Result<int, int>(Error(123))`. -/
theorem value_const_on_error_preserves_state_witness :
    value_const_access (mkError (T := Int) (123 : Int)) =
      some (Except.error ⟨(123 : Int)⟩, mkError (T := Int) (123 : Int)) ∧
    has_value (mkError (T := Int) (E := Int) (123 : Int)) = false ∧
    ResultState.error (mkError (T := Int) (123 : Int)) = some (123 : Int) :=
  value_const_on_error_preserves_state (mkError (123 : Int)) (123 : Int) rfl rfl

/-- C9: if copying the registered action into the guard fails during
registration, then for `ScopeExit` and `ScopeFail` the action is invoked
exactly once, before the failure propagates, while for `ScopeSuccess` the
action is not invoked (the failure still propagates). -/
theorem scope_guard_copy_failure_policy :
    guardConstructFromLvalue ScopePolicy.onExit true =
      [GuardEvent.actionInvoked, GuardEvent.failurePropagated] ∧
    guardConstructFromLvalue ScopePolicy.onFail true =
      [GuardEvent.actionInvoked, GuardEvent.failurePropagated] ∧
    guardConstructFromLvalue ScopePolicy.onSuccess true =
      [GuardEvent.failurePropagated] ∧
    (∀ p, ((guardConstructFromLvalue p true).count GuardEvent.actionInvoked =
        if execute_on_constructor_failure p then 1 else 0) ∧
      GuardEvent.failurePropagated ∈ guardConstructFromLvalue p true) := by
  refine ⟨rfl, rfl, rfl, ?_⟩
  intro p
  cases p <;> exact ⟨rfl, by decide⟩

end dga
